import Mathlib

/-!
Shallow embedding of `ebaysdk/connection.py` (TokenManager and
BaseConnection) and proofs about the spec's claims.

Conventions of the embedding:
* Python wall-clock instants (`datetime.now()`) are natural numbers of
  whole seconds; `timedelta` normalisation keeps a `days` part and a
  `seconds` part in `[0, 86400)`, so `(a - b).seconds` is `(a - b) % 86400`.
* Python truthiness on an optional string (`None` and `""` are falsy) is
  `truthyOptStr`.
* Python `dict` values reaching the embedded code are strings; a dict is
  an association list with unique keys kept insertion-ordered, `del`
  fails (KeyError) when the key is absent.
* Fallible Python code (uncaught exceptions) is embedded with
  `Option`/`Except`.
-/

namespace EbaySDK

/-- Python truthiness of an optional string: `None` and `""` are falsy. -/
def truthyOptStr : Option String → Bool
  | none => false
  | some s => s ≠ ""

/-- Seconds in one day: the modulus of `timedelta.seconds`. -/
def secsPerDay : Nat := 86400

/-- `TokenManager.TOKEN_TTL_SECS = 60 * 60`. -/
def TOKEN_TTL_SECS : Nat := 60 * 60

/-- The `seconds` component of the Python `timedelta` `now - fetched`:
after normalisation it is the elapsed whole seconds modulo one day
(the `days` component absorbs the rest). -/
def timedeltaSeconds (now fetched : Nat) : Nat :=
  (now - fetched) % secsPerDay

/-- Mutable state of a `TokenManager`: `__current_token` and
`__date_token_fetched`, both `None` at construction. -/
structure TMState where
  currentToken : Option String
  dateTokenFetched : Option Nat
deriving Repr, DecidableEq

/-- `TokenManager.__init__` leaves both cache fields `None`. -/
def TMState.init : TMState := ⟨none, none⟩

/-- `TokenManager.is_expired`: `diff = datetime.now() - self.__date_token_fetched`
then `diff.seconds >= self.TOKEN_TTL_SECS`.  When no fetch date is recorded
the subtraction raises a `TypeError` (`datetime - None`), embedded as `none`. -/
def is_expired (st : TMState) (now : Nat) : Option Bool :=
  match st.dateTokenFetched with
  | none => none
  | some d => some (decide (timedeltaSeconds now d ≥ TOKEN_TTL_SECS))

/-- `TokenManager.get_token`: `if not self.__current_token or self.is_expired():`
refetch and restamp, else return the cache.  `fresh` is the value a successful
`_send_request()` would return; the two `datetime.now()` readings inside one
call are the same instant `now`.  The result carries the returned value, the
new state, and whether a network fetch happened; `none` means the call raised
(only possible through `is_expired`). -/
def get_token (st : TMState) (now : Nat) (fresh : String) :
    Option (String × TMState × Bool) :=
  match (if !truthyOptStr st.currentToken then some true else is_expired st now) with
  | none => none
  | some needFetch =>
    if needFetch then
      some (fresh, ⟨some fresh, some now⟩, true)
    else
      some (st.currentToken.getD "", st, false)

/-- Invariant of reachable `TokenManager` states: a truthy cached token
implies a recorded fetch date (the two fields are always written together). -/
def TMInv (st : TMState) : Bool :=
  !truthyOptStr st.currentToken || st.dateTokenFetched.isSome

/-- Lookup in a Python dict (string values), `d.get(k)` / `d[k]`. -/
def dictLookup (d : List (String × String)) (k : String) : Option String :=
  (d.find? (fun p => p.1 == k)).map (fun p => p.2)

/-- Membership test in a Python dict, `k in d`. -/
def dictContains (d : List (String × String)) (k : String) : Bool :=
  d.any (fun p => p.1 == k)

/-- Python `d[k] = v`: replace the value in place when the key exists,
append otherwise (insertion order preserved). -/
def dictSet (d : List (String × String)) (k v : String) :
    List (String × String) :=
  if dictContains d k then d.map (fun p => if p.1 == k then (k, v) else p)
  else d ++ [(k, v)]

/-- Python `d.update(kvs)` applied pair by pair. -/
def dictUpdate (d kvs : List (String × String)) : List (String × String) :=
  kvs.foldl (fun acc kv => dictSet acc kv.1 kv.2) d

/-- Python `del d[k]`: removes the entry when present, raises `KeyError`
(embedded as `none`) when the key is absent. -/
def dictDel (d : List (String × String)) (k : String) :
    Option (List (String × String)) :=
  if dictContains d k then some (d.filter (fun p => p.1 != k)) else none

/-- Classification of the exceptions `TokenManager._send_request` lets
propagate: the transport exception from `requests.post`, the decode error
from `response.json()`, and the `KeyError` from
`response_dict['access_token']`.  The spec's error taxonomy names this
category `CredentialError`. -/
inductive CredentialError where
  | httpCallFailed
  | invalidJsonBody
  | missingAccessToken
deriving Repr, DecidableEq

/-- Outcome of `requests.post` against the token endpoint, as far as
`_send_request` inspects it: either the call raised, or a body arrived whose
parse as a JSON object gave `some` association list (string fields are all
the code reads) or `none` when the body is not valid JSON. -/
inductive TokenHttpResult where
  | failed
  | responded (jsonBody : Option (List (String × String)))
deriving Repr, DecidableEq

/-- `TokenManager._send_request` on the outcome of its single POST:
`response.json()` then `response_dict['access_token']`; every failure is an
uncaught exception, classified by `CredentialError`. -/
def send_request (r : TokenHttpResult) : Except CredentialError String :=
  match r with
  | .failed => .error .httpCallFailed
  | .responded none => .error .invalidJsonBody
  | .responded (some d) =>
    match dictLookup d "access_token" with
    | none => .error .missingAccessToken
    | some tok => .ok tok

/-- Failure raised by `BaseConnection.__init__` when `client_id` or
`client_secret` is missing (Python raises `ValueError` with this message;
the spec's taxonomy names the category `ConfigurationError`). -/
inductive ConfigurationError where
  | missingCredentials (msg : String)
deriving Repr, DecidableEq

/-- State built by a successful `BaseConnection.__init__`: the stored
credentials and the freshly constructed `TokenManager` (whose cache is
empty — construction performs no token fetch; the embedding of the
constructor is given no network input at all). -/
structure BCInit where
  clientId : String
  clientSecret : String
  tokenManager : TMState
deriving Repr, DecidableEq

/-- Credential check at the top of `BaseConnection.__init__`:
`kwargs.get('client_id')` / `kwargs.get('client_secret')`, then
`if not client_id or not client_secret: raise ValueError(...)`, and only
then `TokenManager(...)` is constructed. -/
def baseConnection_init (client_id client_secret : Option String) :
    Except ConfigurationError BCInit :=
  if !truthyOptStr client_id || !truthyOptStr client_secret then
    .error (.missingCredentials
      "<client_id> and <client_secret> must be provided for API access")
  else
    .ok ⟨client_id.getD "", client_secret.getD "", TMState.init⟩

/-- Python `str.lower()`: per-character lowercasing (strings viewed as
their character sequences). -/
def pyLower (s : String) : String := ⟨s.data.map Char.toLower⟩

/-- Python `str.startswith(pre)`: `pre`'s characters are a prefix of `s`'s. -/
def pyStartswith (s pre : String) : Bool := pre.data.isPrefixOf s.data

/-- Body of the loop of `BaseConnection._add_prefix` for one node:
`if not nodes[i].startswith(verb.lower()): nodes[i] = verb.lower() +
"response." + nodes[i].lower()`. -/
def add_prefix_one (verb node : String) : String :=
  if pyStartswith node (pyLower verb) then node
  else pyLower verb ++ "response." ++ pyLower node

/-- `BaseConnection._add_prefix(nodes, verb)`: when `verb` is truthy,
rewrite every node in place by `add_prefix_one`; otherwise leave the list
untouched. -/
def _add_prefix (nodes : List String) (verb : String) : List String :=
  if verb ≠ "" then nodes.map (add_prefix_one verb) else nodes

/-- Raw transport response, as far as the embedded code inspects it:
`status_code` and the HTTP reason phrase. -/
structure RawResponse where
  status_code : Nat
  reason : String
deriving Repr, DecidableEq

/-- Per-call state after `process_response`, as `error()` reads it:
`self.verb`, `self._response_error`, and the list a call to
`self._get_resp_body_errors()` yields (the verb-specific extraction hook;
the base-class body returns `self._resp_body_errors` when non-empty and
`[]` otherwise). -/
structure ProcessedState where
  verb : String
  responseError : Option String
  payloadErrors : List String
deriving Repr, DecidableEq

/-- Tail of `BaseConnection.process_response`: `self._response_error`
stays `None` (from `_reset`) on status 200 and becomes
`self.response.reason` otherwise. -/
def set_response_error (status : Nat) (reason : String) : Option String :=
  if status ≠ 200 then some reason else none

/-- `BaseConnection.process_response` as far as `error()` is concerned:
record the transport error candidate; `payloadErrors` stands for what the
extraction hook will yield on this response. -/
def process_response (r : RawResponse) (verb : String)
    (payloadErrors : List String) : ProcessedState :=
  ⟨verb, set_response_error r.status_code r.reason, payloadErrors⟩

/-- Modelled from the spec: `ebaysdk.utils.smart_encode` composed with
`smart_decode` (both live outside `src/`); per the spec this forces each
error to unicode "in a proper way", which on the unicode strings reaching
`error()` is the identity. -/
def smart_encode_then_decode (s : String) : String := s

/-- `BaseConnection.error`: append `self._response_error` when truthy,
extend with the payload errors, and when the array is non-empty join it
with a comma-space under the verb; otherwise return `None`. -/
def error (st : ProcessedState) : Option String :=
  let errorArray :=
    (if truthyOptStr st.responseError then [st.responseError.getD ""] else [])
      ++ st.payloadErrors
  if 0 < errorArray.length then
    some (st.verb ++ ": " ++
      String.intercalate ", " (errorArray.map smart_encode_then_decode))
  else
    none

/-- `ConnectionError(msg, response)` as `error_check` raises it: the
aggregated message together with the normalized result. -/
structure ConnError where
  msg : String
  response : ProcessedState
deriving Repr, DecidableEq

/-- `BaseConnection.error_check`: `estr = self.error()`; raise
`ConnectionError(estr, self.response)` when `estr` is truthy and
`self.config.get('errors', True)` holds (the flag is `none` when the
configuration does not set it, defaulting to `true`). -/
def error_check (st : ProcessedState) (errorsFlag : Option Bool) :
    Except ConnError Unit :=
  if truthyOptStr (error st) && errorsFlag.getD true then
    .error ⟨(error st).getD "", st⟩
  else
    .ok ()

/-- Encoded request body: `build_request_data` returns a string in the
base class; subclasses may produce a dict. -/
inductive RequestData where
  | str (s : String)
  | dict (d : List (String × String))
deriving Repr, DecidableEq

/-- The prepared request handed to the transport (or to the parallel
queue): the fields `build_request` determines. -/
structure PreparedRequest where
  method : String
  url : String
  headers : List (String × String)
  body : RequestData
  hasFiles : Bool
deriving Repr, DecidableEq

/-- Header assembly in `BaseConnection.build_request`: `hookHeaders` is
what `build_request_headers(verb)` returned (`{}` in the base class), then
`headers.update(...)` merges in `User-Agent`/`X-EBAY-SDK-REQUEST-ID` and,
after `get_token()`, the `X-EBAY-API-IAF-TOKEN` header. -/
def built_headers (hookHeaders : List (String × String))
    (userAgent requestId token : String) : List (String × String) :=
  dictUpdate
    (dictUpdate hookHeaders
      [("User-Agent", userAgent), ("X-EBAY-SDK-REQUEST-ID", requestId)])
    [("X-EBAY-API-IAF-TOKEN", token)]

/-- `BaseConnection.build_request` after the verb-specific hooks ran:
assemble `built_headers`, and when `files` are present delete the preset
`Content-Type` entry (`del` — `KeyError`, embedded as `none`, when the
key is absent) and wrap a string body under `XMLPayload`; the resulting
`Request` is prepared for the transport. -/
def build_request (hookHeaders : List (String × String))
    (userAgent requestId token : String) (requestData : RequestData)
    (files : Bool) (method url : String) : Option PreparedRequest :=
  let headers := built_headers hookHeaders userAgent requestId token
  if files then
    match dictDel headers "Content-Type" with
    | none => none
    | some headers2 =>
      let rd := match requestData with
        | .str s => .dict [("XMLPayload", s)]
        | d => d
      some ⟨method, url, headers2, rd, true⟩
  else
    some ⟨method, url, headers, requestData, false⟩

/-- Observable effects of one `execute` call: how many transport sends,
response processings and error checks ran, and what was handed to the
parallel context's queue by `self.parallel._add_request(self)`. -/
structure ExecTrace where
  sends : Nat
  processes : Nat
  errorChecks : Nat
  parallelQueue : List PreparedRequest
deriving Repr, DecidableEq

/-- Trace at the start of a call (after `_reset`). -/
def trace0 : ExecTrace := ⟨0, 0, 0, []⟩

/-- `BaseConnection.execute_request`: with a parallel context the prepared
request is enqueued and the method returns with `self.response` untouched
(still `None` from `_reset`); otherwise `self.session.send` runs and its
response is stored. -/
def execute_request (parallel : Bool) (req : PreparedRequest)
    (net : RawResponse) (tr : ExecTrace) : Option RawResponse × ExecTrace :=
  if parallel then
    (none, { tr with parallelQueue := tr.parallelQueue ++ [req] })
  else
    (some net, { tr with sends := tr.sends + 1 })

/-- Tail of `BaseConnection.execute` from `execute_request` on: send (or
enqueue), then — only when `self.response` has content, i.e. is not
`None` — `process_response` and `error_check`; return `self.response`.
`net` is the response the transport would deliver, `payloadErrors` what
the extraction hook would find in it. -/
def execute_tail (parallel : Bool) (req : PreparedRequest)
    (net : RawResponse) (verb : String) (payloadErrors : List String)
    (errorsFlag : Option Bool) :
    Except ConnError (Option ProcessedState × ExecTrace) :=
  match execute_request parallel req net trace0 with
  | (none, tr) => .ok (none, tr)
  | (some raw, tr) =>
    let st := process_response raw verb payloadErrors
    let tr2 := { tr with processes := tr.processes + 1,
                         errorChecks := tr.errorChecks + 1 }
    match error_check st errorsFlag with
    | .error e => .error e
    | .ok () => .ok (some st, tr2)

/-- Helper: the byte round-trip is the identity on a list of strings. -/
theorem map_smart_encode_then_decode (l : List String) :
    l.map smart_encode_then_decode = l := by
  induction l with
  | nil => rfl
  | cons a l ih => simp [smart_encode_then_decode, ih]

/-- Helper: a string of the shape `a ++ ": " ++ b` is never empty. -/
theorem verb_colon_message_nonempty (a b : String) : a ++ ": " ++ b ≠ "" := by
  intro h0
  have hd := congrArg String.data h0
  have hcolon : (": " : String).data = [':', ' '] := by decide
  have hempty : ("" : String).data = ([] : List Char) := by decide
  rw [String.data_append, String.data_append, hcolon, hempty] at hd
  simp at hd

/-- Helper: a message built by `error()` is never the empty string (it
always contains the colon-space separator), so it is truthy. -/
theorem error_message_nonempty (st : ProcessedState) (e : String)
    (h : error st = some e) : e ≠ "" := by
  simp only [error] at h
  split at h <;> split at h
  all_goals
    first
    | exact Option.noConfusion h
    | (simp only [Option.some.injEq] at h;
       rw [← h];
       exact verb_colon_message_nonempty _ _)

/-- C1.  The TTL check of `TokenManager` is broken by the `timedelta`
day wrap-around: a token fetched at instant 0 and queried exactly one day
later (86400 s elapsed, far beyond the 3600 s TTL) is reported
not-expired, and `get_token` returns the stale cached value without any
refresh — refuting "is_expired() returns true iff the elapsed time is at
least 3600 seconds" and "get_token() never returns a token fetched more
than 3600 seconds ago". -/
theorem ttl_check_wraps_after_one_day :
    TOKEN_TTL_SECS ≤ 86400 - 0
    ∧ is_expired ⟨some "cached", some 0⟩ 86400 = some false
    ∧ get_token ⟨some "cached", some 0⟩ 86400 "freshly-fetched" =
        some ("cached", ⟨some "cached", some 0⟩, false) := by
  refine ⟨by decide, by decide, by decide⟩

/-- C7 counterexample.  When the issuer hands back the empty string as
`access_token`, the first `get_token` caches it, and a second call one
second later (well within the TTL) does NOT return the identical cached
value without a network fetch: the empty cached token is falsy, so the
call fetches again (fetch flag `true`) and returns a different value. -/
theorem second_call_within_ttl_refetches_empty_token :
    get_token ⟨none, none⟩ 0 "" = some ("", ⟨some "", some 0⟩, true)
    ∧ get_token ⟨some "", some 0⟩ 1 "token-2" =
        some ("token-2", ⟨some "token-2", some 1⟩, true)
    ∧ (1 : Nat) - 0 < TOKEN_TTL_SECS
    ∧ "token-2" ≠ "" := by
  refine ⟨by decide, by decide, by decide, by decide⟩

/-- C7 (amended: provided the fetched token is a non-empty string).  A
first `get_token` on an empty cache fetches and caches `fresh`; a second
call strictly less than 3600 seconds later returns the identical cached
value, leaves the state unchanged, and performs no network fetch. -/
theorem second_call_within_ttl_uses_cache :
    ∀ (st : TMState) (t1 t2 : Nat) (fresh fresh2 : String),
      st.currentToken = none → fresh ≠ "" → t1 ≤ t2 →
      t2 - t1 < TOKEN_TTL_SECS →
      get_token st t1 fresh = some (fresh, ⟨some fresh, some t1⟩, true)
      ∧ get_token ⟨some fresh, some t1⟩ t2 fresh2 =
          some (fresh, ⟨some fresh, some t1⟩, false) := by
  intro st t1 t2 fresh fresh2 hnone hfresh _ hlt
  constructor
  · simp [get_token, truthyOptStr, hnone]
  · have hmod : timedeltaSeconds t2 t1 = t2 - t1 := by
      have : t2 - t1 < secsPerDay := by
        have h1 : TOKEN_TTL_SECS < secsPerDay := by decide
        omega
      simpa [timedeltaSeconds] using Nat.mod_eq_of_lt this
    have hexp : is_expired ⟨some fresh, some t1⟩ t2 = some false := by
      simp [is_expired, hmod]
      omega
    simp [get_token, truthyOptStr, hfresh, hexp]

/-- C7 witness: instantiating the amended theorem at a concrete first
fetch at time 0 and a second call 10 seconds later. -/
theorem second_call_within_ttl_uses_cache_witness :
    get_token ⟨none, none⟩ 0 "token-a" =
      some ("token-a", ⟨some "token-a", some 0⟩, true)
    ∧ get_token ⟨some "token-a", some 0⟩ 10 "token-b" =
        some ("token-a", ⟨some "token-a", some 0⟩, false) :=
  second_call_within_ttl_uses_cache ⟨none, none⟩ 0 10 "token-a" "token-b"
    rfl (by decide) (by decide) (by decide)

/-- C10.  `is_expired` fails (the `datetime - None` subtraction raises)
whenever no fetch date is recorded; `TokenManager.__init__` establishes
the invariant that a truthy cached token comes with a recorded fetch
date, every `get_token` call preserves it, and under that invariant
`get_token` never fails — its falsy-token check short-circuits before
`is_expired` is evaluated. -/
theorem is_expired_needs_a_previous_fetch :
    (∀ (tok : Option String) (now : Nat), is_expired ⟨tok, none⟩ now = none)
    ∧ TMInv TMState.init = true
    ∧ (∀ (st : TMState) (now : Nat) (fresh : String),
        TMInv st = true → (get_token st now fresh).isSome = true)
    ∧ (∀ (st : TMState) (now : Nat) (fresh v : String) (st2 : TMState)
        (b : Bool), TMInv st = true →
        get_token st now fresh = some (v, st2, b) → TMInv st2 = true) := by
  refine ⟨fun tok now => rfl, rfl, ?_, ?_⟩
  · intro st now fresh hinv
    rcases st with ⟨tok, date⟩
    by_cases htok : truthyOptStr tok = true
    · have hdate : date.isSome = true := by
        simpa [TMInv, htok] using hinv
      rcases Option.isSome_iff_exists.1 hdate with ⟨d, rfl⟩
      simp only [get_token, htok, is_expired, Bool.not_true, Bool.false_eq_true,
        if_false]
      split <;> simp
    · have htok' : truthyOptStr tok = false := by
        simpa using htok
      simp [get_token, htok']
  · intro st now fresh v st2 b hinv hcall
    rcases st with ⟨tok, date⟩
    by_cases htok : truthyOptStr tok = true
    · have hdate : date.isSome = true := by
        simpa [TMInv, htok] using hinv
      rcases Option.isSome_iff_exists.1 hdate with ⟨d, rfl⟩
      simp only [get_token, htok, is_expired, Bool.not_true, Bool.false_eq_true,
        if_false] at hcall
      split at hcall <;>
        · simp only [Option.some.injEq, Prod.mk.injEq] at hcall
          obtain ⟨-, hst2, -⟩ := hcall
          simp [← hst2, TMInv]
    · have htok' : truthyOptStr tok = false := by
        simpa using htok
      simp only [get_token, htok', Bool.not_false, if_true] at hcall
      simp only [Option.some.injEq, Prod.mk.injEq] at hcall
      obtain ⟨-, hst2, -⟩ := hcall
      simp [← hst2, TMInv]

/-- C10 witness: the invariant holds for the freshly constructed manager,
whose first `get_token` call therefore succeeds. -/
theorem is_expired_needs_a_previous_fetch_witness :
    (get_token TMState.init 0 "token-a").isSome = true :=
  is_expired_needs_a_previous_fetch.2.2.1 TMState.init 0 "token-a" rfl

/-- C2.  The token refresh fails (with the failure the spec's taxonomy
labels `CredentialError`) exactly when the HTTP call fails, the body is
not valid JSON, or the parsed JSON object has no `access_token` field;
on success it returns the `access_token` string from the body. -/
theorem send_request_classifies_failures :
    (∀ (r : TokenHttpResult) (tok : String),
      send_request r = .ok tok ↔
        ∃ d, r = .responded (some d) ∧ dictLookup d "access_token" = some tok)
    ∧ (∀ r : TokenHttpResult,
        send_request r = .error .httpCallFailed ↔ r = .failed)
    ∧ (∀ r : TokenHttpResult,
        send_request r = .error .invalidJsonBody ↔ r = .responded none)
    ∧ (∀ d : List (String × String), dictLookup d "access_token" = none →
        send_request (.responded (some d)) = .error .missingAccessToken) := by
  refine ⟨?_, ?_, ?_, ?_⟩
  · intro r tok
    match r with
    | .failed => simp [send_request]
    | .responded none => simp [send_request]
    | .responded (some d) =>
      cases h : dictLookup d "access_token" with
      | none => simp [send_request, h]
      | some t => simp [send_request, h, eq_comm]
  · intro r
    match r with
    | .failed => simp [send_request]
    | .responded none => simp [send_request]
    | .responded (some d) =>
      cases h : dictLookup d "access_token" with
      | none => simp [send_request, h]
      | some t => simp [send_request, h]
  · intro r
    match r with
    | .failed => simp [send_request]
    | .responded none => simp [send_request]
    | .responded (some d) =>
      cases h : dictLookup d "access_token" with
      | none => simp [send_request, h]
      | some t => simp [send_request, h]
  · intro d h
    simp [send_request, h]

/-- C2 witness: a syntactically valid JSON body that lacks the
`access_token` field is rejected. -/
theorem send_request_classifies_failures_witness :
    send_request (.responded (some [("token_type", "Bearer")])) =
      .error .missingAccessToken :=
  send_request_classifies_failures.2.2.2 [("token_type", "Bearer")] rfl

/-- C4.  Constructing the connection with a missing (or falsy)
`client_id` or `client_secret` fails from the constructor itself with the
missing-credentials error (a `ValueError` in the code; the spec's
taxonomy labels it `ConfigurationError`), and even a successful
construction builds the `TokenManager` with an empty cache — the
constructor performs no token fetch and no API request (its embedding
consumes no network outcome at all). -/
theorem init_without_credentials_fails :
    (∀ cid cs : Option String,
      truthyOptStr cid = false ∨ truthyOptStr cs = false →
      baseConnection_init cid cs = .error (.missingCredentials
        "<client_id> and <client_secret> must be provided for API access"))
    ∧ (∀ (cid cs : Option String) (r : BCInit),
        baseConnection_init cid cs = .ok r → r.tokenManager = TMState.init) := by
  constructor
  · intro cid cs h
    rcases h with h | h <;> simp [baseConnection_init, h]
  · intro cid cs r h
    unfold baseConnection_init at h
    split at h
    · simp at h
    · simp only [Except.ok.injEq] at h
      simp [← h]

/-- C4 witness: a missing `client_id` (with a perfectly good secret) is
rejected with the constructor's error. -/
theorem init_without_credentials_fails_witness :
    baseConnection_init none (some "very-secret") = .error (.missingCredentials
      "<client_id> and <client_secret> must be provided for API access") :=
  init_without_credentials_fails.1 none (some "very-secret") (Or.inl rfl)

/-- C5.  Every node produced by `_add_prefix` starts with the lowercase
verb; a node list whose members already start with the lowercase verb is
left unchanged; a node that does not is rewritten to the lowercase verb
followed by `response.` and the lowercased node; and on verb `GetItem`
the path `item.variations` becomes `getitemresponse.item.variations`
while `getitemresponse.item` is untouched. -/
theorem add_prefix_normalizes_paths :
    (∀ (verb : String) (nodes : List String) (n : String),
      n ∈ _add_prefix nodes verb → pyStartswith n (pyLower verb) = true)
    ∧ (∀ (verb : String) (nodes : List String),
        (∀ n ∈ nodes, pyStartswith n (pyLower verb) = true) →
        _add_prefix nodes verb = nodes)
    ∧ (∀ verb node : String, pyStartswith node (pyLower verb) = false →
        add_prefix_one verb node = pyLower verb ++ "response." ++ pyLower node)
    ∧ _add_prefix ["item.variations"] "GetItem" =
        ["getitemresponse.item.variations"]
    ∧ _add_prefix ["getitemresponse.item"] "GetItem" =
        ["getitemresponse.item"] := by
  refine ⟨?_, ?_, ?_, by decide, by decide⟩
  · intro verb nodes n hn
    by_cases hv : verb = ""
    · subst hv
      have h1 : pyLower "" = "" := by decide
      have h2 : "".data = ([] : List Char) := by decide
      simp only [pyStartswith, h1, h2, List.isPrefixOf_iff_prefix]
      exact List.nil_prefix
    · simp only [ _add_prefix, ne_eq, hv, not_false_eq_true, if_true,
        List.mem_map] at hn
      rcases hn with ⟨node, -, rfl⟩
      unfold add_prefix_one
      split
      · assumption
      · simp [pyStartswith, List.isPrefixOf_iff_prefix]
  · intro verb nodes hall
    unfold _add_prefix
    split
    · induction nodes with
      | nil => rfl
      | cons a l ih =>
        have ha := hall a (by simp)
        have hl := ih fun n hn => hall n (by simp [hn])
        simp only [List.map_cons, hl, List.cons.injEq, and_true]
        simp [add_prefix_one, ha]
    · rfl
  · intro verb node h
    simp [add_prefix_one, h]

/-- C5 witness: the general clauses instantiated on verb `GetItem` — the
rewritten path is a member of the output and starts with `getitem`, and
the already-prefixed singleton list is returned unchanged. -/
theorem add_prefix_normalizes_paths_witness :
    pyStartswith "getitemresponse.item.variations" (pyLower "GetItem") = true
    ∧ _add_prefix ["getitemresponse.item"] "GetItem" =
        ["getitemresponse.item"] :=
  ⟨add_prefix_normalizes_paths.1 "GetItem" ["item.variations"]
      "getitemresponse.item.variations" (by decide),
    add_prefix_normalizes_paths.2.1 "GetItem" ["getitemresponse.item"]
      (by decide)⟩

/-- C3 counterexample.  A non-200 transport status whose reason phrase is
the empty string leaves `_response_error` falsy, so with no payload
errors `error()` returns absence-of-error even though the status is not
200 — refuting "error() returns absence-of-error iff the transport status
is 200 and payload-error extraction yields an empty list". -/
theorem error_absent_despite_non_200_status :
    error ⟨"GetItem", set_response_error 404 "", []⟩ = none
    ∧ (404 : Nat) ≠ 200 := by
  refine ⟨by decide, by decide⟩

/-- C3 (amended: absence-of-error also requires the recorded reason to be
truthy — `error()` returns nothing iff the payload-error list is empty
and either the status is 200 or the reason phrase is the empty string).
Otherwise it returns the single string `<verb>: <comma-joined messages>`
with the transport error (when truthy) first, then the payload errors in
extraction order; for verb `GetItem`, payload errors `["Invalid ID"]` and
status 200 the result is exactly `"GetItem: Invalid ID"`. -/
theorem error_aggregates_transport_then_payload :
    (∀ (verb : String) (status : Nat) (reason : String)
      (payload : List String),
      (error ⟨verb, set_response_error status reason, payload⟩ = none ↔
        payload = [] ∧ (status = 200 ∨ reason = "")))
    ∧ (∀ (verb : String) (status : Nat) (reason : String)
        (payload : List String), status ≠ 200 → reason ≠ "" →
        error ⟨verb, set_response_error status reason, payload⟩ =
          some (verb ++ ": " ++ String.intercalate ", " (reason :: payload)))
    ∧ (∀ (verb : String) (respErr : Option String) (payload : List String),
        truthyOptStr respErr = false → payload ≠ [] →
        error ⟨verb, respErr, payload⟩ =
          some (verb ++ ": " ++ String.intercalate ", " payload))
    ∧ error ⟨"GetItem", set_response_error 200 "OK", ["Invalid ID"]⟩ =
        some "GetItem: Invalid ID" := by
  refine ⟨?_, ?_, ?_, by decide⟩
  · intro verb status reason payload
    by_cases hs : status = 200 <;> by_cases hr : reason = "" <;>
      cases payload <;>
        simp [error, set_response_error, truthyOptStr, hs, hr]
  · intro verb status reason payload hs hr
    simp [error, set_response_error, truthyOptStr, hs, hr,
      map_smart_encode_then_decode, smart_encode_then_decode]
  · intro verb respErr payload hfalsy hne
    simp [error, hfalsy, map_smart_encode_then_decode,
      smart_encode_then_decode, hne, List.length_pos]

/-- C3 witness: a 404 with a truthy reason and one payload error yields
the transport error first, comma-joined with the payload error. -/
theorem error_aggregates_transport_then_payload_witness :
    error ⟨"GetItem", set_response_error 404 "Not Found", ["Invalid ID"]⟩ =
      some "GetItem: Not Found, Invalid ID" := by
  have h := error_aggregates_transport_then_payload.2.1 "GetItem" 404
    "Not Found" ["Invalid ID"] (by decide) (by decide)
  simpa using h

/-- C6.  On a call whose aggregated error message is non-empty: with the
configuration flag `errors` set to false, `execute` does not raise — it
returns the normalized result, from which the very same message is still
retrievable via `error()`; with `errors` true, or absent (the default),
the call raises the single composite `ConnectionError` carrying that
message and the normalized result. -/
theorem errors_flag_selects_raise_or_attach :
    ∀ (req : PreparedRequest) (net : RawResponse) (verb : String)
      (payload : List String) (e : String),
      error (process_response net verb payload) = some e →
      (execute_tail false req net verb payload (some false) =
          .ok (some (process_response net verb payload), ⟨1, 1, 1, []⟩)
        ∧ error (process_response net verb payload) = some e)
      ∧ execute_tail false req net verb payload (some true) =
          .error ⟨e, process_response net verb payload⟩
      ∧ execute_tail false req net verb payload none =
          .error ⟨e, process_response net verb payload⟩ := by
  intro req net verb payload e he
  have hne : e ≠ "" := error_message_nonempty _ _ he
  have htruthy : truthyOptStr (some e) = true := by
    simpa [truthyOptStr]
  refine ⟨⟨?_, he⟩, ?_, ?_⟩
  · simp [execute_tail, execute_request, trace0, error_check, he, htruthy]
  · simp [execute_tail, execute_request, trace0, error_check, he, htruthy]
  · simp [execute_tail, execute_request, trace0, error_check, he, htruthy]

/-- C6 witness: a 200 response carrying one payload error is returned
(not raised) when `errors` is false, with the message still readable. -/
theorem errors_flag_selects_raise_or_attach_witness :
    execute_tail false ⟨"GET", "https://api", [], .str "", false⟩
        ⟨200, "OK"⟩ "GetItem" ["Invalid ID"] (some false) =
      .ok (some (process_response ⟨200, "OK"⟩ "GetItem" ["Invalid ID"]),
        ⟨1, 1, 1, []⟩) :=
  (errors_flag_selects_raise_or_attach ⟨"GET", "https://api", [], .str "", false⟩
    ⟨200, "OK"⟩ "GetItem" ["Invalid ID"] "GetItem: Invalid ID"
    (by decide)).1.1

/-- C8 counterexample.  With the base-class hook headers (`{}`) the built
headers carry no `Content-Type` entry, and `build_request` with
attachments then fails on `del headers['Content-Type']` (a `KeyError`)
instead of succeeding — refuting "the removal succeeds for every built
headers map, including one that contains no Content-Type entry". -/
theorem build_request_files_fails_without_content_type :
    dictContains (built_headers [] "sdk-ua" "req-1" "tok-1") "Content-Type"
        = false
    ∧ build_request [] "sdk-ua" "req-1" "tok-1" (.str "<xml/>") true
        "POST" "https://api" = none := by
  refine ⟨by decide, by decide⟩

/-- C8 (amended: the removal succeeds exactly when the built headers
contain a `Content-Type` entry).  With attachments present and a
`Content-Type` entry in the built headers, `build_request` deletes it —
the resulting headers carry no `Content-Type` — and wraps a string body
under the `XMLPayload` field; when the built headers carry no
`Content-Type` entry, `build_request` fails with the `KeyError` from
`del`. -/
theorem build_request_files_strips_content_type :
    ∀ (hookHeaders : List (String × String)) (ua rid tok s method url : String),
      (dictContains (built_headers hookHeaders ua rid tok) "Content-Type"
          = true →
        ∃ h2, dictDel (built_headers hookHeaders ua rid tok) "Content-Type"
            = some h2
          ∧ build_request hookHeaders ua rid tok (.str s) true method url =
              some ⟨method, url, h2, .dict [("XMLPayload", s)], true⟩
          ∧ dictContains h2 "Content-Type" = false)
      ∧ (dictContains (built_headers hookHeaders ua rid tok) "Content-Type"
            = false →
          build_request hookHeaders ua rid tok (.str s) true method url
            = none) := by
  intro hookHeaders ua rid tok s method url
  constructor
  · intro hct
    refine ⟨(built_headers hookHeaders ua rid tok).filter
      (fun p => p.1 != "Content-Type"), ?_, ?_, ?_⟩
    · simp [dictDel, hct]
    · simp [build_request, dictDel, hct]
    · simp only [dictContains]
      rw [Bool.eq_false_iff]
      intro hany
      simp only [List.any_eq_true, List.mem_filter] at hany
      rcases hany with ⟨p, ⟨-, hne⟩, heq⟩
      rw [bne_iff_ne] at hne
      exact hne (by simpa using heq)
  · intro hct
    simp [build_request, dictDel, hct]

/-- C8 witness: a hook that preset `Content-Type: text/xml` (as the
per-endpoint subclasses do) has it stripped when attachments are sent. -/
theorem build_request_files_strips_content_type_witness :
    (build_request [("Content-Type", "text/xml")] "sdk-ua" "req-1" "tok-1"
      (.str "<xml/>") true "POST" "https://api").isSome = true := by
  have h := (build_request_files_strips_content_type
    [("Content-Type", "text/xml")] "sdk-ua" "req-1" "tok-1" "<xml/>"
    "POST" "https://api").1 (by decide)
  rcases h with ⟨h2, -, hbuild, -⟩
  simp [hbuild]

/-- C9.  With a parallel-execution context active, the call hands the
fully built request to the parallel queue and returns immediately with no
response: the executor's response state stays unpopulated (`none`), and
that call performs no transport send, no response processing and no error
check. -/
theorem parallel_enqueues_and_returns_immediately :
    ∀ (req : PreparedRequest) (net : RawResponse) (verb : String)
      (payload : List String) (errorsFlag : Option Bool),
      execute_tail true req net verb payload errorsFlag =
        .ok (none, ⟨0, 0, 0, [req]⟩) := by
  intro req net verb payload errorsFlag
  rfl

end EbaySDK
